import Mathlib

/-!
Verification of the `hackathon-todo` repository: a shallow embedding of the
rule-based intent parser (`huggingface-deploy/backend/services/ai_agent.py`),
the chat router delete-confirmation flow and error handlers
(`backend/routers/chat.py`), the conversation-history endpoint
(`backend/routers/chat.py` with `backend/repositories/message_repository.py`),
the task data model and its creation paths (`backend/models/task.py`,
`huggingface-deploy/backend/schemas/task.py`, `src/domain/task.py`), and the
CLI variant (`src/cli/main.py`, `src/cli/commands.py`,
`src/infrastructure/in_memory_repository.py`).

Python regular expressions used by the parser are embedded via a small
backtracking regex engine (`RE`, `reMatch`, `reSearch`) reproducing
`re.search` semantics: un-anchored leftmost search, first-alternative
preference, greedy quantifiers with backtracking.  Each pattern literal of the
source is transliterated into an `RE` value.
-/

/-! ## Python string primitives -/

/-- Whitespace characters recognised by Python `str.strip` / regex `\s`
(for the ASCII messages handled here). -/
def isPyWs (c : Char) : Bool :=
  c = ' ' || c = '\t' || c = '\n' || c = '\r' || c = '\x0b' || c = '\x0c'

/-- Python `str.lower` on a character (ASCII). -/
def pyLowerChar (c : Char) : Char := c.toLower

/-- Python `str.lower`. -/
def pyLower (s : List Char) : List Char := s.map pyLowerChar

/-- Python `str.strip`: drop leading and trailing whitespace. -/
def pyStrip (s : List Char) : List Char :=
  ((s.dropWhile isPyWs).reverse.dropWhile isPyWs).reverse

/-- Helper for Python `str.title`: `prevCased` tracks whether the previous
character was a letter. -/
def pyTitleAux : Bool → List Char → List Char
  | _, [] => []
  | prevCased, c :: t =>
    if c.isAlpha then
      (if prevCased then c.toLower else c.toUpper) :: pyTitleAux true t
    else
      c :: pyTitleAux false t

/-- Python `str.title`: first letter of every run of letters uppercased,
the rest lowercased. -/
def pyTitle (s : List Char) : List Char := pyTitleAux false s

/-- Drop `pre` from the front of `s`, or fail. -/
def stripPrefixChars : List Char → List Char → Option (List Char)
  | [], s => some s
  | _ :: _, [] => none
  | c :: cs, d :: ds => if c = d then stripPrefixChars cs ds else none

/-- Python substring test `needle in hay`. -/
def pyContains (needle : List Char) : List Char → Bool
  | [] => needle.isEmpty
  | h :: t => (stripPrefixChars needle (h :: t)).isSome || pyContains needle t

/-- Python `int` on a digit string (`\d+` capture groups only). -/
def digitsToNat (s : List Char) : Nat :=
  s.foldl (fun acc c => acc * 10 + (c.toNat - '0'.toNat)) 0

/-! ## A backtracking regex engine with Python `re.search` semantics -/

/-- Regular expressions, covering exactly the constructs appearing in the
patterns of `ai_agent.py`: literals, single-character classes, concatenation,
ordered alternation, greedy `?`, greedy `+` over a character class, and
numbered capturing groups. -/
inductive RE where
  | eps : RE
  | lit (s : List Char) : RE
  | cls (p : Char → Bool) : RE
  | seq (a b : RE) : RE
  | alt (a b : RE) : RE
  | opt (a : RE) : RE
  | plus (p : Char → Bool) : RE
  | grp (n : Nat) (a : RE) : RE

/-- Capture environment: group number to captured text. -/
abbrev Caps : Type := List (Nat × List Char)

/-- Greedy splits for `p+`: the remaining suffixes after consuming
`run, run-1, …, 1` class characters, longest consumption first. -/
def plusSplits (p : Char → Bool) (s : List Char) : List (List Char) :=
  let run := (s.takeWhile p).length
  (List.range run).map (fun i => s.drop (run - i))

/-- All ways a regex can match a prefix of `s`, as `(rest, captures)` pairs
in backtracking priority order (first alternative preferred, greedy
quantifiers longest first) — Python `re` leftmost-first semantics at a fixed
start position. -/
def reMatch : RE → List Char → List (List Char × Caps)
  | .eps, s => [(s, [])]
  | .lit l, s =>
    match stripPrefixChars l s with
    | some rest => [(rest, [])]
    | none => []
  | .cls _, [] => []
  | .cls p, c :: t => if p c then [(t, [])] else []
  | .seq a b, s =>
    (reMatch a s).flatMap (fun r => (reMatch b r.1).map (fun q => (q.1, r.2 ++ q.2)))
  | .alt a b, s => reMatch a s ++ reMatch b s
  | .opt a, s => reMatch a s ++ [(s, [])]
  | .plus p, s => (plusSplits p s).map (fun t => (t, []))
  | .grp n a, s =>
    (reMatch a s).map (fun r => (r.1, r.2 ++ [(n, s.take (s.length - r.1.length))]))

/-- Python `re.search`: try each start position left to right, returning the
captures of the first (highest-priority) match. -/
def reSearch (r : RE) : List Char → Option Caps
  | [] =>
    match reMatch r [] with
    | x :: _ => some x.2
    | [] => none
  | c :: t =>
    match reMatch r (c :: t) with
    | x :: _ => some x.2
    | [] => reSearch r t

/-- Extract capture group `n` (Python `match.group(n)`), empty if absent. -/
def getGroup (caps : Caps) (n : Nat) : List Char :=
  ((caps.find? (fun pr => pr.1 == n)).map (fun pr => pr.2)).getD []

/-! ### Pattern combinator shorthand -/

/-- Literal regex from a string. -/
def rlit (s : String) : RE := .lit s.data

/-- Ordered alternation of a non-empty pattern list. -/
def ralts : List RE → RE
  | [] => .eps
  | [r] => r
  | r :: rs => .alt r (ralts rs)

/-- Concatenation of a pattern list. -/
def rseqs : List RE → RE
  | [] => .eps
  | [r] => r
  | r :: rs => .seq r (rseqs rs)

/-- Regex `\s+`. -/
def rws : RE := .plus isPyWs

/-- Regex `\d+`. -/
def rdigits : RE := .plus Char.isDigit

/-- Regex `\w+` (ASCII word characters). -/
def rword : RE := .plus (fun c => c.isAlphanum || c = '_')

/-- Regex `.` (any character except newline). -/
def rdot : Char → Bool := fun c => c ≠ '\n'

/-- Regex `(?:X\s+)?` for a literal `X` — the optional `task `/`id `/`to `
fragments of the patterns. -/
def roptWord (s : String) : RE := .opt (.seq (rlit s) rws)

/-! ## The rule-based intent parser (`QwenAIAgent._parse_intent_rule_based`) -/

/-- Result of the parser: the classified intent together with its extracted
data dictionary (the fields actually placed in the returned `dict`). -/
inductive ParsedIntent where
  | createTask (title : String) (description : String) : ParsedIntent
  | listTasks (status : Option String) : ParsedIntent
  | summarizeTasks : ParsedIntent
  | completeTask (taskId : Nat) : ParsedIntent
  | deleteTask (taskId : Nat) : ParsedIntent
  | updateTask (taskId : Nat) (newTitle : String) : ParsedIntent
  | helpIntent : ParsedIntent
  | unknown (originalMessage : String) : ParsedIntent
  deriving DecidableEq

/-- Patterns `create_patterns_en + create_patterns_ur` in source order:
`(?:add|create|new)\s+(?:task\s+)?(?:to\s+)?(.+)`,
`i\s+(?:need|want)\s+(?:to\s+)?(.+)`,
`reminder?\s+(?:to\s+)?(.+)`,
`(?:kal|aaj|parso)\s+(.+)\s+(?:hai|karna)`,
`(.+)\s+(?:lena|karna|hai)`. -/
def createPatterns : List RE :=
  [ rseqs [ralts [rlit "add", rlit "create", rlit "new"], rws,
           roptWord "task", roptWord "to", .grp 1 (.plus rdot)],
    rseqs [rlit "i", rws, ralts [rlit "need", rlit "want"], rws,
           roptWord "to", .grp 1 (.plus rdot)],
    rseqs [rlit "reminde", .opt (rlit "r"), rws,
           roptWord "to", .grp 1 (.plus rdot)],
    rseqs [ralts [rlit "kal", rlit "aaj", rlit "parso"], rws,
           .grp 1 (.plus rdot), rws, ralts [rlit "hai", rlit "karna"]],
    rseqs [.grp 1 (.plus rdot), rws, ralts [rlit "lena", rlit "karna", rlit "hai"]] ]

/-- Date-hint pattern `(tomorrow|today|kal|aaj|parso|next\s+\w+|\d+/\d+)`. -/
def datePattern : RE :=
  .grp 1 (ralts [rlit "tomorrow", rlit "today", rlit "kal", rlit "aaj", rlit "parso",
                 rseqs [rlit "next", rws, rword],
                 rseqs [rdigits, rlit "/", rdigits]])

/-- Patterns `list_patterns` in source order:
`(?:show|list|get|view)\s+(?:my\s+)?(?:tasks|todos)`,
`what\s+(?:are\s+)?my\s+(?:tasks|todos)`,
`(?:pending|active|completed)\s+(?:tasks|todos)`,
`(?:mere|mere)\s+(?:tasks|kaam)`. -/
def listPatterns : List RE :=
  [ rseqs [ralts [rlit "show", rlit "list", rlit "get", rlit "view"], rws,
           roptWord "my", ralts [rlit "tasks", rlit "todos"]],
    rseqs [rlit "what", rws, roptWord "are", rlit "my", rws,
           ralts [rlit "tasks", rlit "todos"]],
    rseqs [ralts [rlit "pending", rlit "active", rlit "completed"], rws,
           ralts [rlit "tasks", rlit "todos"]],
    rseqs [ralts [rlit "mere", rlit "mere"], rws, ralts [rlit "tasks", rlit "kaam"]] ]

/-- Status-filter pattern `(pending|active|completed)`. -/
def statusPattern : RE :=
  .grp 1 (ralts [rlit "pending", rlit "active", rlit "completed"])

/-- Patterns `complete_patterns` in source order:
`(?:mark|complete|finish|done)\s+(?:task\s+)?(?:id\s+)?(\d+)`,
`(?:task|kaam)\s+(\d+)\s+(?:complete|khatam|done)`. -/
def completePatterns : List RE :=
  [ rseqs [ralts [rlit "mark", rlit "complete", rlit "finish", rlit "done"], rws,
           roptWord "task", roptWord "id", .grp 1 rdigits],
    rseqs [ralts [rlit "task", rlit "kaam"], rws, .grp 1 rdigits, rws,
           ralts [rlit "complete", rlit "khatam", rlit "done"]] ]

/-- Patterns `delete_patterns` in source order:
`(?:delete|remove|cancel)\s+(?:task\s+)?(?:id\s+)?(\d+)`,
`(?:task|kaam)\s+(\d+)\s+(?:delete|hata)`. -/
def deletePatterns : List RE :=
  [ rseqs [ralts [rlit "delete", rlit "remove", rlit "cancel"], rws,
           roptWord "task", roptWord "id", .grp 1 rdigits],
    rseqs [ralts [rlit "task", rlit "kaam"], rws, .grp 1 rdigits, rws,
           ralts [rlit "delete", rlit "hata"]] ]

/-- Update pattern `(?:update|change|edit)\s+(?:task\s+)?(?:id\s+)?(\d+)\s+(?:to\s+)?(.+)`. -/
def updatePattern : RE :=
  rseqs [ralts [rlit "update", rlit "change", rlit "edit"], rws,
         roptWord "task", roptWord "id", .grp 1 rdigits, rws,
         roptWord "to", .grp 2 (.plus rdot)]

/-- Keyword list of the summarize check. -/
def summarizeWords : List (List Char) :=
  ["summarize".data, "summary".data, "overview".data, "kitne tasks".data]

/-- Keyword list of the help check (the source lists "help" twice). -/
def helpWords : List (List Char) :=
  ["help".data, "help".data, "kya kar sakte".data, "commands".data]

/-- Try each pattern in order; first `re.search` hit wins (the loop shape of
the source). -/
def findFirstMatch : List RE → List Char → Option Caps
  | [], _ => none
  | p :: rest, ml =>
    match reSearch p ml with
    | some caps => some caps
    | none => findFirstMatch rest ml

/-- The CREATE TASK branch: on a hit, the title is the stripped group 1
title-cased, and the description is `"Created via AI chat"` plus an optional
date hint found by `datePattern` over the whole message. -/
def tryCreate (ml : List Char) : Option ParsedIntent :=
  (findFirstMatch createPatterns ml).map (fun caps =>
    let taskText := pyStrip (getGroup caps 1)
    let dateInfo := (reSearch datePattern ml).map (fun c => getGroup c 1)
    .createTask (String.mk (pyTitle taskText))
      ("Created via AI chat" ++
        (match dateInfo with
         | some d => " - " ++ String.mk d
         | none => "")))

/-- The LIST TASKS branch: on a hit, the optional status filter is extracted
by a separate scan of the whole message. -/
def tryList (ml : List Char) : Option ParsedIntent :=
  (findFirstMatch listPatterns ml).map (fun _ =>
    .listTasks ((reSearch statusPattern ml).map (fun c => String.mk (getGroup c 1))))

/-- The SUMMARIZE TASKS branch: substring test over the keyword set. -/
def trySummarize (ml : List Char) : Option ParsedIntent :=
  if summarizeWords.any (fun w => pyContains w ml) then some .summarizeTasks else none

/-- The COMPLETE TASK branch. -/
def tryComplete (ml : List Char) : Option ParsedIntent :=
  (findFirstMatch completePatterns ml).map (fun caps =>
    .completeTask (digitsToNat (getGroup caps 1)))

/-- The DELETE TASK branch. -/
def tryDelete (ml : List Char) : Option ParsedIntent :=
  (findFirstMatch deletePatterns ml).map (fun caps =>
    .deleteTask (digitsToNat (getGroup caps 1)))

/-- The UPDATE TASK branch. -/
def tryUpdate (ml : List Char) : Option ParsedIntent :=
  (reSearch updatePattern ml).map (fun caps =>
    .updateTask (digitsToNat (getGroup caps 1))
      (String.mk (pyTitle (pyStrip (getGroup caps 2)))))

/-- The HELP branch: substring test over the keyword set. -/
def tryHelp (ml : List Char) : Option ParsedIntent :=
  if helpWords.any (fun w => pyContains w ml) then some .helpIntent else none

/-- `QwenAIAgent._parse_intent_rule_based`: lowercase and strip the message,
then try the categories in the fixed priority order
create → list → summarize → complete → delete → update → help → unknown. -/
def parseIntentRuleBased (message : String) : ParsedIntent :=
  let ml := pyStrip (pyLower message.data)
  match tryCreate ml with
  | some r => r
  | none =>
    match tryList ml with
    | some r => r
    | none =>
      match trySummarize ml with
      | some r => r
      | none =>
        match tryComplete ml with
        | some r => r
        | none =>
          match tryDelete ml with
          | some r => r
          | none =>
            match tryUpdate ml with
            | some r => r
            | none =>
              match tryHelp ml with
              | some r => r
              | none => .unknown message

example : parseIntentRuleBased "Mark task 5 as done" = .completeTask 5 := by decide
example : parseIntentRuleBased "Add task buy milk tomorrow" =
    .createTask "Buy Milk Tomorrow" "Created via AI chat - tomorrow" := by decide
example : parseIntentRuleBased "Delete task 3" = .deleteTask 3 := by decide
example : parseIntentRuleBased "kal doodh lena hai" =
    .createTask "Doodh Lena" "Created via AI chat - kal" := by decide

/-! ## The template-based response generator
(`QwenAIAgent._generate_response_rule_based`) -/

/-- The data dictionary entry `original_message`, read by the response
generator via `data.get("original_message", "")`: only the `unknown` intent
stores that key. -/
def originalMessageOf : ParsedIntent → String
  | .unknown m => m
  | _ => ""

/-- Keyword list of the Roman-Urdu heuristic. -/
def urduKeywords : List (List Char) :=
  ["hai".data, "karna".data, "kal".data, "aaj".data,
   "mera".data, "mere".data, "kaam".data]

/-- The `is_urdu` check of the generator: scan
`data.get("original_message", "").lower()` for the keywords. -/
def isUrduData (d : ParsedIntent) : Bool :=
  urduKeywords.any (fun w => pyContains w (pyLower (originalMessageOf d).data))

/-- The Roman-Urdu response template table. -/
def urduResponse : ParsedIntent → String
  | .createTask title _ => "✅ Task ban gaya: '" ++ title ++ "'"
  | .listTasks _ => "📋 Ye rahe aapke tasks:"
  | .summarizeTasks => "📊 Aapke tasks ka khulasa:"
  | .deleteTask taskId => "🗑️ Task #" ++ toString taskId ++ " delete ho gaya"
  | .completeTask taskId =>
    "✅ Shabaash! Task #" ++ toString taskId ++ " complete ho gaya!"
  | .updateTask _ newTitle => "✏️ Task update ho gaya: '" ++ newTitle ++ "'"
  | .helpIntent =>
    "👋 Main aapki madad kar sakta hoon! Try karein:\n- \"Add task buy milk tomorrow\"\n- \"Kal doodh lena hai\"\n- \"Show my tasks\"\n- \"Task 1 complete karo\"\n- \"Delete task 3\""
  | .unknown _ =>
    "🤔 Samajh nahi aaya. Try karein: 'Add task buy milk' ya 'Show my tasks'"

/-- The English response template table. -/
def englishResponse : ParsedIntent → String
  | .createTask title _ => "✅ I've created task: '" ++ title ++ "'"
  | .listTasks _ => "📋 Here are your tasks:"
  | .summarizeTasks => "📊 Here's a summary of your tasks:"
  | .deleteTask taskId => "🗑️ Task #" ++ toString taskId ++ " has been deleted"
  | .completeTask taskId =>
    "✅ Great job! Task #" ++ toString taskId ++ " marked complete!"
  | .updateTask _ newTitle => "✏️ Task updated to: '" ++ newTitle ++ "'"
  | .helpIntent =>
    "👋 I can help you manage tasks! Try saying:\n- \"Add task buy milk tomorrow\"\n- \"Kal doodh lena hai\" (Roman Urdu)\n- \"Show my tasks\"\n- \"Mark task 1 as done\"\n- \"Delete task 3\""
  | .unknown _ =>
    "🤔 I didn't understand. Try: 'Add task buy milk' or 'Show my tasks'"

/-- `QwenAIAgent._generate_response_rule_based`: choose the Roman-Urdu table
when the `is_urdu` heuristic fires, the English table otherwise. -/
def generateResponseRuleBased (d : ParsedIntent) : String :=
  if isUrduData d then urduResponse d else englishResponse d

/-- The keyword scan the spec describes, applied to the original message. -/
def containsUrduKeyword (message : String) : Bool :=
  urduKeywords.any (fun w => pyContains w (pyLower message.data))

/-! ## Backend task model (`backend/models/task.py`) and MCP tools -/

/-- The `Task` SQLModel of `backend/models/task.py`, with `datetime`
timestamps abstracted to a monotone `Nat` clock. -/
structure BackendTask where
  id : Nat
  title : String
  description : Option String
  status : String
  created_at : Nat
  completed_at : Option Nat
  deriving DecidableEq

/-- Construction `Task(title=…, description=…)`: field defaults of the
model (`status="pending"`, `created_at=utcnow`, `completed_at=None`). -/
def mkBackendTask (id : Nat) (title : String) (description : Option String)
    (now : Nat) : BackendTask :=
  { id := id, title := title, description := description,
    status := "pending", created_at := now, completed_at := none }

/-- `Task.mark_complete`: set status completed and stamp `completed_at`. -/
def BackendTask.mark_complete (t : BackendTask) (now : Nat) : BackendTask :=
  { t with status := "completed", completed_at := some now }

/-! ## Chat router delete flow (`backend/routers/chat.py`, delete_task branch) -/

/-- The confirmation test of the router:
`"yes" in request.message.lower() or "confirm" in request.message.lower()`. -/
def containsConfirmation (message : String) : Bool :=
  pyContains "yes".data (pyLower message.data) ||
  pyContains "confirm".data (pyLower message.data)

/-- `MCPTaskTools.delete_task`: look the task up; report failure when absent,
otherwise remove the row.  Returns the new store and the `success` flag. -/
def mcpDeleteTask (tasks : List BackendTask) (taskId : Nat) :
    List BackendTask × Bool :=
  match tasks.find? (fun t => t.id == taskId) with
  | none => (tasks, false)
  | some _ => (tasks.filter (fun t => t.id ≠ taskId), true)

/-- The `intent == "delete_task"` branch of the chat endpoint: returns the
resulting task store, the `action` tag, and the response text. -/
def chatDeleteBranch (message : String) (taskId : Nat)
    (tasks : List BackendTask) : List BackendTask × Option String × String :=
  if containsConfirmation message then
    let res := mcpDeleteTask tasks taskId
    if res.2 then
      (res.1, some "task_deleted",
        "🗑️ Task #" ++ toString taskId ++ " has been deleted")
    else
      (res.1, none, "❌ Task #" ++ toString taskId ++ " not found")
  else
    match tasks.find? (fun t => t.id == taskId) with
    | some t =>
      (tasks, some "delete_confirmation",
        "⚠️ Are you sure you want to delete '" ++ t.title ++
          "'? Reply 'yes' to confirm")
    | none => (tasks, none, "❌ Task #" ++ toString taskId ++ " not found")

/-! ## Chat router exception handlers (`backend/routers/chat.py`) -/

/-- The failure kinds distinguished by the chat endpoint's `except` clauses,
in catch order: `RateLimitError`, other `AIAgentError`, any other exception.
Each carries `str(e)`. -/
inductive ChatException where
  | rateLimit (msg : String) : ChatException
  | aiAgent (msg : String) : ChatException
  | unexpected (msg : String) : ChatException

/-- The HTTP status and detail string raised for each failure kind. -/
def chatExceptionResponse : ChatException → Nat × String
  | .rateLimit _ =>
    (429, "Rate limit exceeded. Please try again in a few minutes.")
  | .aiAgent m => (503, "AI service temporarily unavailable: " ++ m)
  | .unexpected m => (500, "Chat error: " ++ m)

/-! ## Conversation history endpoint (`backend/routers/chat.py`,
`backend/repositories/message_repository.py`) -/

/-- The `Message` SQLModel row, timestamps as `Nat`. -/
structure ChatMessage where
  id : Nat
  conversation_id : Nat
  role : String
  content : String
  created_at : Nat
  deriving DecidableEq

/-- The `Conversation` SQLModel row. -/
structure Conversation where
  id : Nat
  session_id : String
  deriving DecidableEq

/-- The persistent store the two repositories read. -/
structure ChatDb where
  conversations : List Conversation
  messages : List ChatMessage

/-- `ConversationRepository.get_by_session_id`: first conversation whose
`session_id` matches exactly. -/
def getBySessionId (db : ChatDb) (sid : String) : Option Conversation :=
  db.conversations.find? (fun c => c.session_id == sid)

/-- The messages of one conversation (the `WHERE conversation_id = …`). -/
def messagesOfConversation (db : ChatDb) (cid : Nat) : List ChatMessage :=
  db.messages.filter (fun m => m.conversation_id == cid)

/-- The `ORDER BY created_at DESC` comparison. -/
def newerFirst (a b : ChatMessage) : Prop := b.created_at ≤ a.created_at

instance : DecidableRel newerFirst := fun a b => Nat.decLe b.created_at a.created_at

instance : IsTotal ChatMessage newerFirst :=
  ⟨fun a b => Nat.le_total b.created_at a.created_at⟩

instance : IsTrans ChatMessage newerFirst :=
  ⟨fun _ _ _ hab hbc => Nat.le_trans hbc hab⟩

/-- `MessageRepository.get_latest`: order by `created_at` descending, take
`limit` rows, then reverse into chronological order. -/
def getLatest (db : ChatDb) (cid : Nat) (limit : Nat) : List ChatMessage :=
  (((messagesOfConversation db cid).insertionSort newerFirst).take limit).reverse

/-- `get_conversation_history`: 404 when the session has no conversation,
otherwise the latest 50 messages of it. -/
def getConversationHistory (db : ChatDb) (sid : String) :
    Except Nat (String × List ChatMessage) :=
  match getBySessionId db sid with
  | none => Except.error 404
  | some conv => Except.ok (sid, getLatest db conv.id 50)

/-! ## Task store state machine over the public operations
(`backend/routers/tasks.py`, `services/mcp_tools.py`) -/

/-- A task store with the auto-increment id counter and a monotone clock. -/
structure TaskStore where
  tasks : List BackendTask
  nextId : Nat
  now : Nat

/-- The field assignment loop of the update endpoints: set `title` and
`description` when provided; `status` and `completed_at` are never touched. -/
def applyTaskUpdate (t : BackendTask) (title : Option String)
    (description : Option String) : BackendTask :=
  { t with title := title.getD t.title,
           description := (description.map some).getD t.description }

/-- One public operation on the task store.  Every operation happens at a
time `time` no earlier than the store's clock. -/
inductive TaskStep : TaskStore → TaskStore → Prop where
  | create (s : TaskStore) (title : String) (description : Option String)
      (time : Nat) (h : s.now ≤ time) :
    TaskStep s ⟨s.tasks ++ [mkBackendTask s.nextId title description time],
                s.nextId + 1, time⟩
  | update (s : TaskStore) (taskId : Nat) (title description : Option String)
      (time : Nat) (h : s.now ≤ time) :
    TaskStep s ⟨s.tasks.map (fun t =>
                  if t.id = taskId then applyTaskUpdate t title description else t),
                s.nextId, time⟩
  | complete (s : TaskStore) (taskId : Nat) (time : Nat) (h : s.now ≤ time) :
    TaskStep s ⟨s.tasks.map (fun t =>
                  if t.id = taskId then t.mark_complete time else t),
                s.nextId, time⟩
  | delete (s : TaskStore) (taskId : Nat) (time : Nat) (h : s.now ≤ time) :
    TaskStep s ⟨s.tasks.filter (fun t => t.id ≠ taskId), s.nextId, time⟩

/-- Stores reachable from the empty store through public operations. -/
inductive TaskReachable : TaskStore → Prop where
  | init : TaskReachable ⟨[], 1, 0⟩
  | step {s s' : TaskStore} : TaskReachable s → TaskStep s s' → TaskReachable s'

/-! ## Title validation on the creation paths (`src/domain/task.py`,
`huggingface-deploy/backend/schemas/task.py`, `backend/routers/tasks.py`) -/

/-- Domain `TaskStatus` enum. -/
inductive DomainStatus where
  | pending
  | completed
  deriving DecidableEq

/-- The `Task` dataclass of `src/domain/task.py`. -/
structure DomainTask where
  title : String
  id : Int
  description : Option String
  status : DomainStatus
  created_at : Nat
  completed_at : Option Nat
  deriving DecidableEq

/-- The `Task(...)` constructor with `__post_init__` validation:
`_validate_title` rejects empty or whitespace-only titles, strips the title,
and bounds it at 200 characters; `_normalize_description` strips the
description, maps empty to `None`, and bounds it at 1000 characters. -/
def domainMkTask (title : String) (description : Option String) (now : Nat) :
    Except String DomainTask :=
  if (pyStrip title.data).isEmpty then Except.error "Title cannot be empty"
  else if 200 < (pyStrip title.data).length then
    Except.error "Title cannot exceed 200 characters"
  else
    match description with
    | none =>
      Except.ok ⟨String.mk (pyStrip title.data), 0, none, .pending, now, none⟩
    | some d =>
      if (pyStrip d.data).isEmpty then
        Except.ok ⟨String.mk (pyStrip title.data), 0, none, .pending, now, none⟩
      else if 1000 < (pyStrip d.data).length then
        Except.error "Description cannot exceed 1000 characters"
      else
        Except.ok ⟨String.mk (pyStrip title.data), 0,
          some (String.mk (pyStrip d.data)), .pending, now, none⟩

/-- The pydantic `TaskCreate` schema: `min_length=1, max_length=200` on the
raw title and `max_length=1000` on the description — no trimming. -/
def validTaskCreate (title : String) (description : Option String) : Bool :=
  1 ≤ title.length && title.length ≤ 200 &&
  (match description with
   | none => true
   | some d => d.length ≤ 1000)

/-- The `POST /tasks` path: pydantic validation, then
`Task(**task_data.model_dump())` — the table model stores the title
verbatim. -/
def backendCreateTask (title : String) (description : Option String)
    (id now : Nat) : Option BackendTask :=
  if validTaskCreate title description then
    some (mkBackendTask id title description now)
  else none

/-- Absence of leading and trailing whitespace. -/
def NoEdgeWs (s : List Char) : Prop :=
  (∀ c, s.head? = some c → isPyWs c = false) ∧
  (∀ c, s.getLast? = some c → isPyWs c = false)

/-! ## The CLI variant (`src/cli/main.py`, `src/cli/commands.py`,
`src/infrastructure/in_memory_repository.py`) -/

/-- A parsed CLI invocation. -/
inductive CliCmd where
  | add (title : String) (description : Option String) : CliCmd
  | listCmd : CliCmd
  | update (id : Int) (title : Option String) (description : Option String) : CliCmd
  | delete (id : Int) : CliCmd
  | complete (id : Int) : CliCmd
  deriving DecidableEq

/-- Outcome of argument parsing: `noCommand` prints help and exits 1;
`usageError` is argparse's exit-2 `parser.error` path. -/
inductive ArgParseResult where
  | noCommand : ArgParseResult
  | usageError : ArgParseResult
  | parsed (c : CliCmd) : ArgParseResult
  deriving DecidableEq

/-- Python `int(...)` over a CLI token: optional sign, then digits. -/
def parsePyInt (s : String) : Option Int :=
  match s.data with
  | [] => none
  | '-' :: rest =>
    if rest ≠ [] ∧ rest.all Char.isDigit then some (-(digitsToNat rest : Int))
    else none
  | '+' :: rest =>
    if rest ≠ [] ∧ rest.all Char.isDigit then some (digitsToNat rest : Int)
    else none
  | l => if l.all Char.isDigit then some (digitsToNat l : Int) else none

/-- Whether argparse treats a token as an option: starts with `-`, is not a
bare `-`, and is not a negative number (the parser has no numeric-looking
options, so argparse's negative-number matcher applies). -/
def isOptionToken (s : String) : Bool :=
  match s.data with
  | '-' :: rest => !rest.isEmpty && !rest.all Char.isDigit
  | _ => false

/-- Flag spellings accepted by a subcommand (`--title`, `-t`, `--description`, `-d`). -/
structure OptSpec where
  titleFlags : List String
  descFlags : List String

/-- Scan the tokens after the subcommand: collect positionals and the last
occurrence of each recognised flag's value; an unrecognised option token or a
flag missing its value fails (argparse usage error). -/
def scanArgs (spec : OptSpec) : List String →
    Option (List String × Option String × Option String)
  | [] => some ([], none, none)
  | a :: rest =>
    if spec.titleFlags.contains a then
      match rest with
      | [] => none
      | v :: rest2 =>
        (scanArgs spec rest2).map (fun r =>
          (r.1, some (r.2.1.getD v), r.2.2))
    else if spec.descFlags.contains a then
      match rest with
      | [] => none
      | v :: rest2 =>
        (scanArgs spec rest2).map (fun r =>
          (r.1, r.2.1, some (r.2.2.getD v)))
    else if isOptionToken a then none
    else (scanArgs spec rest).map (fun r => (a :: r.1, r.2))

/-- The argparse configuration of `create_parser`, applied to `sys.argv[1:]`
(`-h`/`--version`, which exit 0 printing text, are outside this model). -/
def parseCliArgs : List String → ArgParseResult
  | [] => .noCommand
  | cmd :: rest =>
    if cmd = "add" then
      match scanArgs ⟨[], ["--description", "-d"]⟩ rest with
      | some ([title], _, d) => .parsed (.add title d)
      | _ => .usageError
    else if cmd = "list" then
      match scanArgs ⟨[], []⟩ rest with
      | some ([], _, _) => .parsed .listCmd
      | _ => .usageError
    else if cmd = "update" then
      match scanArgs ⟨["--title", "-t"], ["--description", "-d"]⟩ rest with
      | some ([idStr], t, d) =>
        match parsePyInt idStr with
        | some i => .parsed (.update i t d)
        | none => .usageError
      | _ => .usageError
    else if cmd = "delete" then
      match scanArgs ⟨[], []⟩ rest with
      | some ([idStr], _, _) =>
        match parsePyInt idStr with
        | some i => .parsed (.delete i)
        | none => .usageError
      | _ => .usageError
    else if cmd = "complete" then
      match scanArgs ⟨[], []⟩ rest with
      | some ([idStr], _, _) =>
        match parsePyInt idStr with
        | some i => .parsed (.complete i)
        | none => .usageError
      | _ => .usageError
    else .usageError

/-- Errors raised by the command handlers: `ValueError` (validation /
invalid id) and `TaskNotFoundError`. -/
inductive CliError where
  | valueError (msg : String) : CliError
  | notFound (taskId : Int) : CliError
  deriving DecidableEq

/-- `InMemoryTaskRepository` state. -/
structure InMemoryRepo where
  tasks : List (Int × DomainTask)
  next_id : Int

/-- The fresh repository `main` constructs for each invocation. -/
def emptyRepo : InMemoryRepo := ⟨[], 1⟩

/-- `InMemoryTaskRepository.get_by_id`: `ValueError` for `id <= 0`,
otherwise the optional lookup. -/
def repoGetById (r : InMemoryRepo) (id : Int) :
    Except CliError (Option DomainTask) :=
  if id ≤ 0 then Except.error (.valueError ("Invalid task ID: " ++ toString id))
  else Except.ok ((r.tasks.find? (fun p => p.1 == id)).map (fun p => p.2))

/-- `InMemoryTaskRepository.delete`: `ValueError` for `id <= 0`, otherwise
remove when present, reporting whether a row was removed. -/
def repoDelete (r : InMemoryRepo) (id : Int) :
    Except CliError (InMemoryRepo × Bool) :=
  if id ≤ 0 then Except.error (.valueError ("Invalid task ID: " ++ toString id))
  else if (r.tasks.find? (fun p => p.1 == id)).isSome then
    Except.ok (⟨r.tasks.filter (fun p => p.1 ≠ id), r.next_id⟩, true)
  else Except.ok (r, false)

/-- The dispatch of `main` over the fresh repository, through the handlers of
`commands.py`; `()` is a handler that returned normally. -/
def runCliCommand : CliCmd → Except CliError Unit
  | .add title desc =>
    match domainMkTask title desc 0 with
    | .error m => Except.error (.valueError m)
    | .ok _ => Except.ok ()
  | .listCmd => Except.ok ()
  | .update id _ _ =>
    match repoGetById emptyRepo id with
    | .error e => Except.error e
    | .ok none => Except.error (.notFound id)
    | .ok (some _) => Except.ok ()
  | .delete id =>
    match repoDelete emptyRepo id with
    | .error e => Except.error e
    | .ok (_, true) => Except.ok ()
    | .ok (_, false) => Except.error (.notFound id)
  | .complete id =>
    match repoGetById emptyRepo id with
    | .error e => Except.error e
    | .ok none => Except.error (.notFound id)
    | .ok (some _) => Except.ok ()

/-- The process exit code of `main(args)`: argparse usage errors exit 2, a
missing subcommand prints help and returns 1, handler exceptions return 1,
success returns 0. -/
def cliMain (argv : List String) : Nat :=
  match parseCliArgs argv with
  | .usageError => 2
  | .noCommand => 1
  | .parsed c =>
    match runCliCommand c with
    | .ok _ => 0
    | .error _ => 1

example : cliMain ["add", "buy milk"] = 0 := by decide
example : cliMain ["add", "   "] = 1 := by decide
example : cliMain ["frobnicate"] = 2 := by decide
example : cliMain ["delete", "abc"] = 2 := by decide
example : cliMain ["delete"] = 2 := by decide
example : cliMain ["delete", "7"] = 1 := by decide
example : cliMain ["delete", "0"] = 1 := by decide
example : cliMain [] = 1 := by decide

/-! ## Theorems -/

/-- C3: Parsing "Mark task 5 as done" yields intent complete_task with
data.task_id = 5, and none of the earlier categories in the priority order
(create, list, summarize) matches this message. -/
theorem parse_mark_task_5_complete :
    parseIntentRuleBased "Mark task 5 as done" = .completeTask 5 ∧
    tryCreate (pyStrip (pyLower "Mark task 5 as done".data)) = none ∧
    tryList (pyStrip (pyLower "Mark task 5 as done".data)) = none ∧
    trySummarize (pyStrip (pyLower "Mark task 5 as done".data)) = none := by
  decide

/-- C4: Parsing "Add task buy milk tomorrow" yields intent create_task with
title the title-cased captured text "Buy Milk Tomorrow" and the date hint
"tomorrow" appended to the default description "Created via AI chat". -/
theorem parse_add_task_buy_milk :
    parseIntentRuleBased "Add task buy milk tomorrow" =
      .createTask "Buy Milk Tomorrow" "Created via AI chat - tomorrow" := by
  decide

/-- C1: For a chat turn classified as delete_task whose message does not
contain "yes" or "confirm" (case-insensitive substring), the task store is
unchanged and, when the task exists, the action tag is "delete_confirmation";
the delete executes (action "task_deleted", or any store change) only when
the message contains a confirmation substring. -/
theorem chat_delete_requires_confirmation
    (msg : String) (taskId : Nat) (tasks : List BackendTask)
    (_hintent : parseIntentRuleBased msg = .deleteTask taskId) :
    (containsConfirmation msg = false →
      (chatDeleteBranch msg taskId tasks).1 = tasks ∧
      ((tasks.find? (fun t => t.id == taskId)).isSome = true →
        (chatDeleteBranch msg taskId tasks).2.1 = some "delete_confirmation")) ∧
    ((chatDeleteBranch msg taskId tasks).2.1 = some "task_deleted" →
      containsConfirmation msg = true) ∧
    ((chatDeleteBranch msg taskId tasks).1 ≠ tasks →
      containsConfirmation msg = true) := by
  unfold chatDeleteBranch
  cases hc : containsConfirmation msg with
  | false =>
    simp only [Bool.false_eq_true, if_false]
    cases hf : tasks.find? (fun t => t.id == taskId) with
    | none => simp [hf]
    | some t => simp [hf]
  | true =>
    exact ⟨fun h => Bool.noConfusion h, fun _ => rfl, fun _ => rfl⟩

/-- Witness for C1 at the message "Delete task 3" over a store holding
task 3. -/
theorem chat_delete_requires_confirmation_witness :
    (chatDeleteBranch "Delete task 3" 3
        [{ id := 3, title := "Buy milk", description := none,
           status := "pending", created_at := 0, completed_at := none }]).1 =
      [{ id := 3, title := "Buy milk", description := none,
         status := "pending", created_at := 0, completed_at := none }] ∧
    (chatDeleteBranch "Delete task 3" 3
        [{ id := 3, title := "Buy milk", description := none,
           status := "pending", created_at := 0, completed_at := none }]).2.1 =
      some "delete_confirmation" := by
  have h := chat_delete_requires_confirmation "Delete task 3" 3
    [{ id := 3, title := "Buy milk", description := none,
       status := "pending", created_at := 0, completed_at := none }]
    (by decide)
  exact ⟨(h.1 (by decide)).1, (h.1 (by decide)).2 (by decide)⟩

/-- C8 (corrected): an unexpected failure in the chat endpoint is answered
with status 500 and detail "Chat error: " followed by the exception's own
message — the underlying message is included, not hidden. -/
theorem internal_error_detail_corrected (m : String) :
    chatExceptionResponse (.unexpected m) = (500, "Chat error: " ++ m) := rfl

/-- Counterexample for C8 as stated: at the concrete unexpected failure
"database connection failed" the 500 response body contains the underlying
exception message as a substring. -/
theorem internal_error_detail_counterexample :
    (chatExceptionResponse (.unexpected "database connection failed")).1 = 500 ∧
    pyContains "database connection failed".data
      (chatExceptionResponse (.unexpected "database connection failed")).2.data
      = true := by
  decide

/-- Shape of a create-branch hit. -/
theorem tryCreate_shape {ml : List Char} {r : ParsedIntent}
    (h : tryCreate ml = some r) : ∃ t d, r = .createTask t d := by
  unfold tryCreate at h
  cases hf : findFirstMatch createPatterns ml with
  | none => rw [hf] at h; simp at h
  | some caps =>
    rw [hf] at h
    simp only [Option.map_some', Option.some.injEq] at h
    exact ⟨_, _, h.symm⟩

/-- Shape of a list-branch hit. -/
theorem tryList_shape {ml : List Char} {r : ParsedIntent}
    (h : tryList ml = some r) : ∃ st, r = .listTasks st := by
  unfold tryList at h
  cases hf : findFirstMatch listPatterns ml with
  | none => rw [hf] at h; simp at h
  | some caps =>
    rw [hf] at h
    simp only [Option.map_some', Option.some.injEq] at h
    exact ⟨_, h.symm⟩

/-- Shape of a summarize-branch hit. -/
theorem trySummarize_shape {ml : List Char} {r : ParsedIntent}
    (h : trySummarize ml = some r) : r = .summarizeTasks := by
  unfold trySummarize at h
  split at h
  · injection h with h2; exact h2.symm
  · simp at h

/-- Shape of a complete-branch hit. -/
theorem tryComplete_shape {ml : List Char} {r : ParsedIntent}
    (h : tryComplete ml = some r) : ∃ n, r = .completeTask n := by
  unfold tryComplete at h
  cases hf : findFirstMatch completePatterns ml with
  | none => rw [hf] at h; simp at h
  | some caps =>
    rw [hf] at h
    simp only [Option.map_some', Option.some.injEq] at h
    exact ⟨_, h.symm⟩

/-- Shape of a delete-branch hit. -/
theorem tryDelete_shape {ml : List Char} {r : ParsedIntent}
    (h : tryDelete ml = some r) : ∃ n, r = .deleteTask n := by
  unfold tryDelete at h
  cases hf : findFirstMatch deletePatterns ml with
  | none => rw [hf] at h; simp at h
  | some caps =>
    rw [hf] at h
    simp only [Option.map_some', Option.some.injEq] at h
    exact ⟨_, h.symm⟩

/-- Shape of an update-branch hit. -/
theorem tryUpdate_shape {ml : List Char} {r : ParsedIntent}
    (h : tryUpdate ml = some r) : ∃ n t, r = .updateTask n t := by
  unfold tryUpdate at h
  cases hf : reSearch updatePattern ml with
  | none => rw [hf] at h; simp at h
  | some caps =>
    rw [hf] at h
    simp only [Option.map_some', Option.some.injEq] at h
    exact ⟨_, _, h.symm⟩

/-- Shape of a help-branch hit. -/
theorem tryHelp_shape {ml : List Char} {r : ParsedIntent}
    (h : tryHelp ml = some r) : r = .helpIntent := by
  unfold tryHelp at h
  split at h
  · injection h with h2; exact h2.symm
  · simp at h

/-- The parser returns the `unknown` intent only with the raw original
message as payload. -/
theorem parse_unknown_original {msg m : String}
    (h : parseIntentRuleBased msg = .unknown m) : m = msg := by
  simp only [parseIntentRuleBased] at h
  split at h
  · obtain ⟨t, d, hr⟩ := tryCreate_shape (by assumption); subst h; cases hr
  · split at h
    · obtain ⟨st, hr⟩ := tryList_shape (by assumption); subst h; cases hr
    · split at h
      · have hr := trySummarize_shape (by assumption); subst h; cases hr
      · split at h
        · obtain ⟨n, hr⟩ := tryComplete_shape (by assumption); subst h; cases hr
        · split at h
          · obtain ⟨n, hr⟩ := tryDelete_shape (by assumption); subst h; cases hr
          · split at h
            · obtain ⟨n, t, hr⟩ := tryUpdate_shape (by assumption); subst h; cases hr
            · split at h
              · have hr := tryHelp_shape (by assumption); subst h; cases hr
              · injection h with h2; exact h2.symm

/-- C2 (corrected): the language heuristic of the template generator reads
`data.get("original_message", "")`, and only the `unknown` intent carries
that key.  Hence for every message classified as any intent other than
`unknown` the English template is returned regardless of the message's
keywords; only for the `unknown` intent is the original message scanned for
the keywords hai, karna, kal, aaj, mera, mere, kaam. -/
theorem response_language_heuristic_corrected
    (msg : String) (p : ParsedIntent)
    (hp : parseIntentRuleBased msg = p) :
    ((∀ m, p ≠ .unknown m) → generateResponseRuleBased p = englishResponse p) ∧
    (∀ m, p = .unknown m → m = msg ∧
      generateResponseRuleBased p =
        (if containsUrduKeyword msg then urduResponse p else englishResponse p)) := by
  constructor
  · intro hnu
    have hfalse : isUrduData p = false := by
      cases p with
      | unknown m => exact absurd rfl (hnu m)
      | createTask t d => rfl
      | listTasks st => rfl
      | summarizeTasks => rfl
      | completeTask n => rfl
      | deleteTask n => rfl
      | updateTask n t => rfl
      | helpIntent => rfl
    simp [generateResponseRuleBased, hfalse]
  · intro m hm
    have hmsg : m = msg := parse_unknown_original (hm ▸ hp)
    subst hmsg
    subst hm
    refine ⟨rfl, ?_⟩
    show (if isUrduData (.unknown m) then _ else _) = _
    have : isUrduData (.unknown m) = containsUrduKeyword m := rfl
    rw [this]

/-- Counterexample for C2 as stated: the message "kal doodh lena hai"
contains the keywords kal/hai and is classified create_task, yet the
generator returns the English template, not the Roman-Urdu one. -/
theorem response_language_heuristic_counterexample :
    parseIntentRuleBased "kal doodh lena hai" =
      .createTask "Doodh Lena" "Created via AI chat - kal" ∧
    containsUrduKeyword "kal doodh lena hai" = true ∧
    generateResponseRuleBased
        (.createTask "Doodh Lena" "Created via AI chat - kal") =
      "✅ I've created task: 'Doodh Lena'" ∧
    generateResponseRuleBased
        (.createTask "Doodh Lena" "Created via AI chat - kal") ≠
      urduResponse (.createTask "Doodh Lena" "Created via AI chat - kal") := by
  decide

/-- Witness for C2 (corrected) at the Roman-Urdu create message. -/
theorem response_language_heuristic_witness :
    generateResponseRuleBased
        (.createTask "Doodh Lena" "Created via AI chat - kal") =
      englishResponse (.createTask "Doodh Lena" "Created via AI chat - kal") :=
  (response_language_heuristic_corrected "kal doodh lena hai"
      (.createTask "Doodh Lena" "Created via AI chat - kal") (by decide)).1
    (fun m h => ParsedIntent.noConfusion h)

/-- C10: for every non-positive id, `InMemoryTaskRepository.get_by_id` and
`.delete` raise `ValueError` instead of reporting not-found, so CLI delete,
update and complete invocations with such an id exit 1 through the
validation-error path, not the not-found path. -/
theorem nonpositive_id_value_error (r : InMemoryRepo) (id : Int)
    (h : id ≤ 0) :
    repoGetById r id =
      Except.error (.valueError ("Invalid task ID: " ++ toString id)) ∧
    repoDelete r id =
      Except.error (.valueError ("Invalid task ID: " ++ toString id)) ∧
    runCliCommand (.delete id) =
      Except.error (.valueError ("Invalid task ID: " ++ toString id)) ∧
    (∀ t d, runCliCommand (.update id t d) =
      Except.error (.valueError ("Invalid task ID: " ++ toString id))) ∧
    runCliCommand (.complete id) =
      Except.error (.valueError ("Invalid task ID: " ++ toString id)) ∧
    (∀ argv, parseCliArgs argv = .parsed (.delete id) → cliMain argv = 1) ∧
    (∀ argv t d, parseCliArgs argv = .parsed (.update id t d) →
      cliMain argv = 1) ∧
    (∀ argv, parseCliArgs argv = .parsed (.complete id) → cliMain argv = 1) := by
  have hget : ∀ r2 : InMemoryRepo, repoGetById r2 id =
      Except.error (.valueError ("Invalid task ID: " ++ toString id)) := by
    intro r2; unfold repoGetById; rw [if_pos h]
  have hdel : ∀ r2 : InMemoryRepo, repoDelete r2 id =
      Except.error (.valueError ("Invalid task ID: " ++ toString id)) := by
    intro r2; unfold repoDelete; rw [if_pos h]
  have hrunDel : runCliCommand (.delete id) =
      Except.error (.valueError ("Invalid task ID: " ++ toString id)) := by
    simp only [runCliCommand]
    rw [hdel emptyRepo]
  have hrunUpd : ∀ t d, runCliCommand (.update id t d) =
      Except.error (.valueError ("Invalid task ID: " ++ toString id)) := by
    intro t d
    simp only [runCliCommand]
    rw [hget emptyRepo]
  have hrunCom : runCliCommand (.complete id) =
      Except.error (.valueError ("Invalid task ID: " ++ toString id)) := by
    simp only [runCliCommand]
    rw [hget emptyRepo]
  refine ⟨hget r, hdel r, hrunDel, hrunUpd, hrunCom, ?_, ?_, ?_⟩
  · intro argv ha
    have hm : cliMain argv = (match runCliCommand (.delete id) with
      | Except.ok _ => 0
      | Except.error _ => 1) := by
      unfold cliMain; rw [ha]
    rw [hm, hrunDel]
  · intro argv t d ha
    have hm : cliMain argv = (match runCliCommand (.update id t d) with
      | Except.ok _ => 0
      | Except.error _ => 1) := by
      unfold cliMain; rw [ha]
    rw [hm, hrunUpd]
  · intro argv ha
    have hm : cliMain argv = (match runCliCommand (.complete id) with
      | Except.ok _ => 0
      | Except.error _ => 1) := by
      unfold cliMain; rw [ha]
    rw [hm, hrunCom]

/-- Witness for C10 at id 0 and the invocation `todo delete 0`. -/
theorem nonpositive_id_value_error_witness :
    repoGetById emptyRepo 0 =
      Except.error (.valueError ("Invalid task ID: " ++ toString (0 : Int))) ∧
    cliMain ["delete", "0"] = 1 := by
  have h := nonpositive_id_value_error emptyRepo 0 (by decide)
  exact ⟨h.1, h.2.2.2.2.2.1 ["delete", "0"] (by decide)⟩

/-- C9: CLI exit codes — 2 exactly on argparse usage errors (unknown command,
missing or non-integer arguments), 1 when a parsed command raises a domain
error (ValueError or TaskNotFoundError) and also when no subcommand is given,
0 when the handler succeeds. -/
theorem cli_exit_codes (argv : List String) :
    (cliMain argv = 2 ↔ parseCliArgs argv = .usageError) ∧
    (parseCliArgs argv = .noCommand → cliMain argv = 1) ∧
    (∀ c, parseCliArgs argv = .parsed c →
      (runCliCommand c = Except.ok () → cliMain argv = 0) ∧
      (∀ e, runCliCommand c = Except.error e → cliMain argv = 1)) := by
  cases hp : parseCliArgs argv with
  | noCommand =>
    have hm : cliMain argv = 1 := by unfold cliMain; rw [hp]
    exact ⟨⟨fun h2 => absurd (hm ▸ h2) (by decide),
            fun hu => ArgParseResult.noConfusion hu⟩,
           fun _ => hm, fun c hc => ArgParseResult.noConfusion hc⟩
  | usageError =>
    have hm : cliMain argv = 2 := by unfold cliMain; rw [hp]
    exact ⟨⟨fun _ => rfl, fun _ => hm⟩,
           fun hn => ArgParseResult.noConfusion hn,
           fun c hc => ArgParseResult.noConfusion hc⟩
  | parsed c =>
    have hm : cliMain argv = (match runCliCommand c with
      | Except.ok _ => 0
      | Except.error _ => 1) := by
      unfold cliMain; rw [hp]
    refine ⟨⟨?_, fun hu => ArgParseResult.noConfusion hu⟩,
            fun hn => ArgParseResult.noConfusion hn, ?_⟩
    · intro h2
      rw [hm] at h2
      cases hr : runCliCommand c with
      | ok u => rw [hr] at h2; simp at h2
      | error e => rw [hr] at h2; simp at h2
    · intro c2 hc2
      have hcc : c2 = c := by injection hc2 with h3; exact h3.symm
      subst hcc
      exact ⟨fun hok => by rw [hm, hok], fun e herr => by rw [hm, herr]⟩

/-- Witness for C9: one invocation of each exit class — unknown command,
non-integer id, successful add, delete of a missing task, and a validation
error. -/
theorem cli_exit_codes_witness :
    cliMain ["frobnicate"] = 2 ∧
    cliMain ["delete", "abc"] = 2 ∧
    cliMain ["add", "buy milk"] = 0 ∧
    cliMain ["delete", "9"] = 1 ∧
    cliMain ["add", "   "] = 1 := by
  refine ⟨(cli_exit_codes ["frobnicate"]).1.mpr (by decide),
          (cli_exit_codes ["delete", "abc"]).1.mpr (by decide),
          ((cli_exit_codes ["add", "buy milk"]).2.2 (.add "buy milk" none)
            (by decide)).1 rfl,
          ((cli_exit_codes ["delete", "9"]).2.2 (.delete 9)
            (by decide)).2 (.notFound 9) rfl,
          ((cli_exit_codes ["add", "   "]).2.2 (.add "   " none)
            (by decide)).2 (.valueError "Title cannot be empty") rfl⟩

/-- The head of a `dropWhile` survivor fails the predicate. -/
theorem head?_dropWhile_false {p : Char → Bool} :
    ∀ (l : List Char) {c : Char},
      (l.dropWhile p).head? = some c → p c = false := by
  intro l
  induction l with
  | nil => intro c hc; simp at hc
  | cons a t ih =>
    intro c hc
    rw [List.dropWhile_cons] at hc
    by_cases hp : p a = true
    · rw [if_pos hp] at hc; exact ih hc
    · rw [if_neg hp] at hc
      rw [List.head?_cons, Option.some.injEq] at hc
      subst hc
      cases h2 : p a with
      | false => rfl
      | true => exact absurd h2 hp

/-- `dropWhile` keeps the last element when its result is non-empty. -/
theorem getLast?_dropWhile_of_ne_nil {p : Char → Bool} :
    ∀ (l : List Char), l.dropWhile p ≠ [] →
      (l.dropWhile p).getLast? = l.getLast? := by
  intro l
  induction l with
  | nil => intro h; simp at h
  | cons a t ih =>
    intro h
    rw [List.dropWhile_cons] at h ⊢
    by_cases hp : p a = true
    · rw [if_pos hp] at h ⊢
      rw [ih h]
      have ht : t ≠ [] := by
        intro h0; rw [h0] at h; simp at h
      cases t with
      | nil => exact absurd rfl ht
      | cons b t2 => rw [List.getLast?_cons_cons]
    · rw [if_neg hp]

/-- The result of `pyStrip` carries no leading or trailing whitespace. -/
theorem pyStrip_noEdgeWs (s : List Char) : NoEdgeWs (pyStrip s) := by
  constructor
  · intro c hc
    unfold pyStrip at hc
    rw [List.head?_reverse] at hc
    have hne : ((s.dropWhile isPyWs).reverse).dropWhile isPyWs ≠ [] := by
      intro h0; rw [h0] at hc; simp at hc
    rw [getLast?_dropWhile_of_ne_nil _ hne] at hc
    rw [List.getLast?_reverse] at hc
    exact head?_dropWhile_false s hc
  · intro c hc
    unfold pyStrip at hc
    rw [List.getLast?_reverse] at hc
    exact head?_dropWhile_false _ hc

/-- C5 (corrected): the domain constructor (the CLI create path) rejects
empty and whitespace-only titles before any store mutation and stores the
stripped, non-empty title; the backend `POST /tasks` path enforces only the
pydantic length bounds on the raw string and stores the title verbatim,
untrimmed. -/
theorem title_validation_corrected
    (title : String) (description : Option String) (now : Nat) :
    (pyStrip title.data = [] →
      domainMkTask title description now =
        Except.error "Title cannot be empty") ∧
    (∀ t, domainMkTask title description now = Except.ok t →
      t.title.data = pyStrip title.data ∧ t.title.data ≠ [] ∧
      NoEdgeWs t.title.data) ∧
    (∀ t id, backendCreateTask title description id now = some t →
      t.title = title) := by
  refine ⟨?_, ?_, ?_⟩
  · intro h
    unfold domainMkTask
    rw [if_pos (show (pyStrip title.data).isEmpty = true by rw [h]; rfl)]
  · intro t ht
    unfold domainMkTask at ht
    by_cases h1 : (pyStrip title.data).isEmpty = true
    · rw [if_pos h1] at ht; exact Except.noConfusion ht
    · rw [if_neg h1] at ht
      by_cases h2 : 200 < (pyStrip title.data).length
      · rw [if_pos h2] at ht; exact Except.noConfusion ht
      · rw [if_neg h2] at ht
        have hne : pyStrip title.data ≠ [] := by
          intro h0; exact h1 (by rw [h0]; rfl)
        have hgoal : ∀ t2 : DomainTask, t2.title.data = pyStrip title.data →
            t2.title.data = pyStrip title.data ∧ t2.title.data ≠ [] ∧
            NoEdgeWs t2.title.data := by
          intro t2 he
          refine ⟨he, by rw [he]; exact hne, by rw [he]; exact pyStrip_noEdgeWs _⟩
        cases description with
        | none =>
          injection ht with ht2
          exact hgoal _ (by rw [← ht2])
        | some d =>
          simp only [] at ht
          by_cases h3 : (pyStrip d.data).isEmpty = true
          · rw [if_pos h3] at ht
            injection ht with ht2
            exact hgoal _ (by rw [← ht2])
          · rw [if_neg h3] at ht
            by_cases h4 : 1000 < (pyStrip d.data).length
            · rw [if_pos h4] at ht; exact Except.noConfusion ht
            · rw [if_neg h4] at ht
              injection ht with ht2
              exact hgoal _ (by rw [← ht2])
  · intro t id ht
    unfold backendCreateTask at ht
    by_cases hv : validTaskCreate title description = true
    · rw [if_pos hv] at ht
      injection ht with ht2
      rw [← ht2]; rfl
    · rw [if_neg hv] at ht; exact Option.noConfusion ht

/-- Counterexample for C5 as stated: the backend create path accepts the
whitespace-only title " " (pydantic `min_length=1` counts the space) and
persists it untrimmed. -/
theorem title_validation_counterexample :
    backendCreateTask " " none 1 0 =
      some { id := 1, title := " ", description := none, status := "pending",
             created_at := 0, completed_at := none } ∧
    pyStrip (" ").data = [] := by
  decide

/-- Witness for C5 (corrected): a whitespace-only title is rejected by the
domain constructor, and " buy milk " is stored stripped. -/
theorem title_validation_witness :
    domainMkTask " " none 0 = Except.error "Title cannot be empty" ∧
    (⟨"buy milk", 0, none, .pending, 0, none⟩ : DomainTask).title.data =
      pyStrip (" buy milk ").data ∧
    NoEdgeWs (⟨"buy milk", 0, none, .pending, 0, none⟩ : DomainTask).title.data := by
  have h1 := (title_validation_corrected " " none 0).1 (by decide)
  have h2 := (title_validation_corrected " buy milk " none 0).2.1
    ⟨"buy milk", 0, none, .pending, 0, none⟩ (by rfl)
  exact ⟨h1, h2.1, h2.2.2⟩

/-- The invariant maintained by every public task-store operation. -/
def TaskStoreInvariant (s : TaskStore) : Prop :=
  ∀ t ∈ s.tasks,
    (t.completed_at.isSome = true ↔ t.status = "completed") ∧
    (∀ c, t.completed_at = some c → t.created_at ≤ c ∧ c ≤ s.now) ∧
    t.created_at ≤ s.now

/-- Every reachable task store satisfies the invariant. -/
theorem taskStore_invariant {s : TaskStore} (h : TaskReachable s) :
    TaskStoreInvariant s := by
  induction h with
  | init => intro t ht; simp at ht
  | step hr hstep ih =>
    rename_i s2 s3
    cases hstep with
    | create title d time hle =>
      intro t ht
      rw [show (⟨s2.tasks ++ [mkBackendTask s2.nextId title d time],
            s2.nextId + 1, time⟩ : TaskStore).tasks =
          s2.tasks ++ [mkBackendTask s2.nextId title d time] from rfl,
        List.mem_append] at ht
      rcases ht with ht | ht
      · have hi := ih t ht
        exact ⟨hi.1,
          fun c hc => ⟨(hi.2.1 c hc).1, le_trans (hi.2.1 c hc).2 hle⟩,
          le_trans hi.2.2 hle⟩
      · rw [List.mem_singleton] at ht
        subst ht
        refine ⟨by simp [mkBackendTask], fun c hc => Option.noConfusion hc,
          le_refl _⟩
    | update taskId title d time hle =>
      intro t ht
      rw [show (⟨s2.tasks.map (fun u =>
            if u.id = taskId then applyTaskUpdate u title d else u),
            s2.nextId, time⟩ : TaskStore).tasks =
          s2.tasks.map (fun u =>
            if u.id = taskId then applyTaskUpdate u title d else u) from rfl,
        List.mem_map] at ht
      obtain ⟨u, hu, hfu⟩ := ht
      have hi := ih u hu
      by_cases hid : u.id = taskId
      · rw [if_pos hid] at hfu
        subst hfu
        exact ⟨hi.1,
          fun c hc => ⟨(hi.2.1 c hc).1, le_trans (hi.2.1 c hc).2 hle⟩,
          le_trans hi.2.2 hle⟩
      · rw [if_neg hid] at hfu
        subst hfu
        exact ⟨hi.1,
          fun c hc => ⟨(hi.2.1 c hc).1, le_trans (hi.2.1 c hc).2 hle⟩,
          le_trans hi.2.2 hle⟩
    | complete taskId time hle =>
      intro t ht
      rw [show (⟨s2.tasks.map (fun u =>
            if u.id = taskId then u.mark_complete time else u),
            s2.nextId, time⟩ : TaskStore).tasks =
          s2.tasks.map (fun u =>
            if u.id = taskId then u.mark_complete time else u) from rfl,
        List.mem_map] at ht
      obtain ⟨u, hu, hfu⟩ := ht
      have hi := ih u hu
      by_cases hid : u.id = taskId
      · rw [if_pos hid] at hfu
        subst hfu
        refine ⟨by simp [BackendTask.mark_complete], ?_, le_trans hi.2.2 hle⟩
        intro c hc
        have : c = time := by
          have := hc
          simp [BackendTask.mark_complete] at this
          exact this.symm
        subst this
        exact ⟨le_trans hi.2.2 hle, le_refl _⟩
      · rw [if_neg hid] at hfu
        subst hfu
        exact ⟨hi.1,
          fun c hc => ⟨(hi.2.1 c hc).1, le_trans (hi.2.1 c hc).2 hle⟩,
          le_trans hi.2.2 hle⟩
    | delete taskId time hle =>
      intro t ht
      rw [show (⟨s2.tasks.filter (fun u => u.id ≠ taskId),
            s2.nextId, time⟩ : TaskStore).tasks =
          s2.tasks.filter (fun u => u.id ≠ taskId) from rfl] at ht
      have hu := (List.mem_filter.mp ht).1
      have hi := ih t hu
      exact ⟨hi.1,
        fun c hc => ⟨(hi.2.1 c hc).1, le_trans (hi.2.1 c hc).2 hle⟩,
        le_trans hi.2.2 hle⟩

/-- C6: in every store reachable through the public operations, a task's
completed_at is present exactly when its status is completed, and when
present it is at least created_at; creation leaves completed_at absent with
status pending, mark_complete sets both, and the update operation touches
neither. -/
theorem completed_at_iff_completed :
    (∀ s, TaskReachable s → ∀ t ∈ s.tasks,
      (t.completed_at.isSome = true ↔ t.status = "completed") ∧
      (∀ c, t.completed_at = some c → t.created_at ≤ c)) ∧
    (∀ id title d now2, (mkBackendTask id title d now2).completed_at = none ∧
      (mkBackendTask id title d now2).status = "pending") ∧
    (∀ (t : BackendTask) now2,
      (t.mark_complete now2).completed_at = some now2 ∧
      (t.mark_complete now2).status = "completed") ∧
    (∀ (t : BackendTask) a b,
      (applyTaskUpdate t a b).completed_at = t.completed_at ∧
      (applyTaskUpdate t a b).status = t.status) := by
  refine ⟨?_, fun _ _ _ _ => ⟨rfl, rfl⟩, fun _ _ => ⟨rfl, rfl⟩,
    fun _ _ _ => ⟨rfl, rfl⟩⟩
  intro s hs t ht
  have h := taskStore_invariant hs t ht
  exact ⟨h.1, fun c hc => (h.2.1 c hc).1⟩

/-- Witness for C6 on the store reached by one create (at time 2) followed by
one complete (at time 5). -/
theorem completed_at_iff_completed_witness :
    ((mkBackendTask 1 "Buy milk" none 2).mark_complete 5).status =
      "completed" ∧
    ((mkBackendTask 1 "Buy milk" none 2).mark_complete 5).created_at ≤ 5 := by
  have h1 : TaskStep ⟨[], 1, 0⟩ ⟨[mkBackendTask 1 "Buy milk" none 2], 2, 2⟩ :=
    TaskStep.create ⟨[], 1, 0⟩ "Buy milk" none 2 (by decide)
  have h2 : TaskStep ⟨[mkBackendTask 1 "Buy milk" none 2], 2, 2⟩
      ⟨[(mkBackendTask 1 "Buy milk" none 2).mark_complete 5], 2, 5⟩ :=
    TaskStep.complete ⟨[mkBackendTask 1 "Buy milk" none 2], 2, 2⟩ 1 5
      (by decide)
  have hr : TaskReachable
      ⟨[(mkBackendTask 1 "Buy milk" none 2).mark_complete 5], 2, 5⟩ :=
    TaskReachable.step (TaskReachable.step TaskReachable.init h1) h2
  have h := completed_at_iff_completed.1 _ hr
    ((mkBackendTask 1 "Buy milk" none 2).mark_complete 5)
    (List.mem_singleton.mpr rfl)
  exact ⟨h.1.mp rfl, h.2 5 rfl⟩

/-- C7: the history endpoint answers 404 for unknown sessions, and for a
known session returns at most the 50 most recent messages of its
conversation, in ascending creation-time order: the result's length is
`min 50` of the conversation size, it is chronologically sorted, every
returned message belongs to the conversation, and every message cut off by
the limit is no newer than any returned one. -/
theorem history_endpoint_spec (db : ChatDb) (sid : String) :
    (getBySessionId db sid = none →
      getConversationHistory db sid = Except.error 404) ∧
    (∀ conv, getBySessionId db sid = some conv →
      getConversationHistory db sid =
        Except.ok (sid, getLatest db conv.id 50) ∧
      (getLatest db conv.id 50).length =
        min 50 (messagesOfConversation db conv.id).length ∧
      List.Pairwise (fun a b => a.created_at ≤ b.created_at)
        (getLatest db conv.id 50) ∧
      (∀ m ∈ getLatest db conv.id 50,
        m ∈ messagesOfConversation db conv.id) ∧
      (∀ x ∈ ((messagesOfConversation db conv.id).insertionSort
          newerFirst).drop 50,
        ∀ y ∈ getLatest db conv.id 50, x.created_at ≤ y.created_at)) := by
  constructor
  · intro h; unfold getConversationHistory; rw [h]
  · intro conv h
    have hs : List.Pairwise newerFirst
        ((messagesOfConversation db conv.id).insertionSort newerFirst) :=
      List.sorted_insertionSort newerFirst _
    refine ⟨by unfold getConversationHistory; rw [h], ?_, ?_, ?_, ?_⟩
    · unfold getLatest
      rw [List.length_reverse, List.length_take,
        (List.perm_insertionSort newerFirst
          (messagesOfConversation db conv.id)).length_eq]
    · unfold getLatest
      rw [List.pairwise_reverse]
      exact hs.sublist (List.take_sublist 50 _)
    · intro m hm
      unfold getLatest at hm
      rw [List.mem_reverse] at hm
      exact (List.perm_insertionSort newerFirst _).subset
        (List.take_subset 50 _ hm)
    · intro x hx y hy
      unfold getLatest at hy
      rw [List.mem_reverse] at hy
      have hsplit : List.Pairwise newerFirst
          (((messagesOfConversation db conv.id).insertionSort
              newerFirst).take 50 ++
            ((messagesOfConversation db conv.id).insertionSort
              newerFirst).drop 50) := by
        rw [List.take_append_drop]; exact hs
      exact (List.pairwise_append.mp hsplit).2.2 y hy x hx

/-- Witness for C7 on a two-conversation database: unknown session gives 404
and a known session with two messages returns both. -/
theorem history_endpoint_spec_witness :
    getConversationHistory
      ⟨[⟨1, "s1"⟩],
       [⟨10, 1, "user", "hi", 3⟩, ⟨11, 1, "assistant", "yo", 1⟩,
        ⟨12, 2, "user", "x", 2⟩]⟩ "nope" = Except.error 404 ∧
    (getLatest
      ⟨[⟨1, "s1"⟩],
       [⟨10, 1, "user", "hi", 3⟩, ⟨11, 1, "assistant", "yo", 1⟩,
        ⟨12, 2, "user", "x", 2⟩]⟩ 1 50).length = min 50 2 := by
  refine ⟨(history_endpoint_spec
      ⟨[⟨1, "s1"⟩],
       [⟨10, 1, "user", "hi", 3⟩, ⟨11, 1, "assistant", "yo", 1⟩,
        ⟨12, 2, "user", "x", 2⟩]⟩ "nope").1 rfl, ?_⟩
  have h := ((history_endpoint_spec
      ⟨[⟨1, "s1"⟩],
       [⟨10, 1, "user", "hi", 3⟩, ⟨11, 1, "assistant", "yo", 1⟩,
        ⟨12, 2, "user", "x", 2⟩]⟩ "s1").2 ⟨1, "s1"⟩ rfl).2.1
  rw [h]
  rfl
